import Mathlib

/-!
Verification of the pinfo front-end (`plaso/frontend/pinfo.py`): a shallow
embedding of the report-assembly and verbosity-gated disclosure logic, with
theorems checking the specification's claims against it.

Modelling conventions:
* Python mappings (`dict`, the `__dict__` of a `PreprocessObject`) are
  insertion-ordered association lists, as the specification's design notes
  require for a deterministic reimplementation.
* `collections.Counter` objects are ordered label/count association lists.
* Fallible Python operations (a `KeyError` on `store_information['Number']`,
  an attribute or format-code error on an ill-shaped value) are modelled with
  `Option`: `none` means the Python code raises at that point.
* External collaborators that are not under `src/` (the storage container,
  `timelib`, the frontend base class) are modelled from the spec where needed;
  each such definition carries a `Modelled from the spec:` doc comment.
-/

set_option autoImplicit false

namespace Pinfo

/-- Dynamic values held by metadata records: scalars (strings, integers),
ordered sequences (Python lists), insertion-ordered mappings (Python dicts)
and `collections.Counter` frequency tables. -/
inductive Value where
  | str (s : String)
  | int (n : Int)
  | list (elems : List Value)
  | dict (entries : List (String × Value))
  | counter (entries : List (String × Nat))

/-- Comma-separated rendering of the entries of a frequency table. -/
def counterPairsStr : List (String × Nat) → String
  | [] => ""
  | [(k, v)] => k ++ ": " ++ toString v
  | (k, v) :: w :: rest => k ++ ": " ++ toString v ++ ", " ++ counterPairsStr (w :: rest)

mutual

/-- Modelled from the spec: generic stringification (`str(value)`, the `{1!s}`
format conversion); a deterministic rendering of each value shape. -/
def valueStr : Value → String
  | .str s => s
  | .int n => toString n
  | .list l => "[" ++ valueListStr l ++ "]"
  | .dict d => "dict(" ++ valuePairsStr d ++ ")"
  | .counter c => "Counter(" ++ counterPairsStr c ++ ")"

/-- Comma-separated rendering of a sequence of values. -/
def valueListStr : List Value → String
  | [] => ""
  | [v] => valueStr v
  | v :: w :: rest => valueStr v ++ ", " ++ valueListStr (w :: rest)

/-- Comma-separated rendering of the entries of a mapping. -/
def valuePairsStr : List (String × Value) → String
  | [] => ""
  | [(k, v)] => k ++ ": " ++ valueStr v
  | (k, v) :: w :: rest => k ++ ": " ++ valueStr v ++ ", " ++ valuePairsStr (w :: rest)

end

/-- Modelled from the spec: the pretty-printed dump produced by the frontend's
`pprint.PrettyPrinter` (`self._printer.pformat`), a deterministic rendering. -/
def pformat (v : Value) : String := valueStr v

/-- Python truthiness of a value: empty strings, zero, and empty collections
are falsy, everything else is truthy. -/
def Value.truthy : Value → Bool
  | .str s => !s.isEmpty
  | .int n => n != 0
  | .list l => !l.isEmpty
  | .dict d => !d.isEmpty
  | .counter c => !c.isEmpty

/-- Check for `isinstance(value, list)`. -/
def Value.isList : Value → Bool
  | .list _ => true
  | _ => false

/-- First-match lookup in an insertion-ordered mapping (`dict` access). -/
def lookup (entries : List (String × Value)) (key : String) : Option Value :=
  match entries with
  | [] => none
  | (k, v) :: rest => if k == key then some v else lookup rest key

/-- State of the `PinfoFrontend` object relevant to formatting: the
`_verbose` flag and the `_storage_file_path` set while parsing options. -/
structure Frontend where
  verbose : Bool
  storageFilePath : String

/-- One metadata record (a `PreprocessObject`): its `__dict__`, the
insertion-ordered mapping of attribute names to values.  The reserved
attributes `collection_information`, `counter`, `plugin_counter` and
`stores` live in this mapping alongside the free-form ones. -/
structure PreprocessObject where
  attrs : List (String × Value)

/-- Modelled from the spec: the storage container (`StorageFile`, not under
`src/`) exposing its ordered metadata records, the `HasReports` predicate and
the report texts (each already rendered by `report.GetString()`). -/
structure StorageFile where
  storageInformation : List PreprocessObject
  hasReports : Bool
  reports : List String

/-- Attribute access `getattr(info, name, None)`. -/
def getattrOpt (info : PreprocessObject) (name : String) : Option Value :=
  lookup info.attrs name

/-- Modelled from the spec: the fixed rule width `_LINE_LENGTH` of the
frontend base class (not under `src/`). -/
def LINE_LENGTH : Nat := 80

/-- Two-digit zero padding for date-time components. -/
def pad2 (n : Nat) : String :=
  if n < 10 then "0" ++ toString n else toString n

/-- Modelled from the spec: `timelib.Timestamp.CopyToIsoFormat` (not under
`src/`) renders an internal timestamp (microseconds since the epoch) as an
ISO-8601 date-time string, via the standard civil-from-days conversion. -/
def copyToIsoFormat (timestamp : Int) : String :=
  let totalSeconds := timestamp.fdiv 1000000
  let days := totalSeconds.fdiv 86400
  let secsOfDay := (totalSeconds - days * 86400).toNat
  let z := days + 719468
  let era := z.fdiv 146097
  let doe := (z - era * 146097).toNat
  let yoe := (doe - doe / 1460 + doe / 36524 - doe / 146096) / 365
  let y := (yoe : Int) + era * 400
  let doy := doe - (365 * yoe + yoe / 4 - yoe / 100)
  let mp := (5 * doy + 2) / 153
  let d := doy - (153 * mp + 2) / 5 + 1
  let m := if mp < 10 then mp + 3 else mp - 9
  let year := if m ≤ 2 then y + 1 else y
  let hh := secsOfDay / 3600
  let mm := (secsOfDay % 3600) / 60
  let ss := secsOfDay % 60
  toString year ++ "-" ++ pad2 m ++ "-" ++ pad2 d ++ "T" ++
    pad2 hh ++ ":" ++ pad2 mm ++ ":" ++ pad2 ss

/-- Left-to-right concatenation of text fragments (the `+=` accumulation
loop over strings). -/
def linesConcat : List String → String
  | [] => ""
  | s :: rest => s ++ linesConcat rest

/-- Python's `sep.join(items)`. -/
def joinWith (sep : String) : List String → String
  | [] => ""
  | [s] => s
  | s :: t :: rest => s ++ sep ++ joinWith sep (t :: rest)

/-- Lines appended by `_AddHeader`: a rule, the banner, a rule. -/
def headerLines : List String :=
  [String.mk (List.replicate LINE_LENGTH '-'),
   "\t\tPlaso Storage Information",
   String.mk (List.replicate LINE_LENGTH '-')]

/-- Lines appended by `_AddCollectionInformation`: storage-file path, the
`file_processed` and `time_of_run` fields with their defaults, then every
remaining entry as `key = value`.  `none` models the `ValueError` raised by
the `{0:s}` format code when `file_processed` is not a string, or by
`CopyToIsoFormat` when `time_of_run` is not an integer. -/
def addCollectionInformation (fe : Frontend)
    (collectionInformation : List (String × Value)) : Option (List String) :=
  match (lookup collectionInformation "file_processed").getD (.str "N/A"),
        (lookup collectionInformation "time_of_run").getD (.int 0) with
  | .str filename, .int timeOfRun =>
      some (["Storage file:\t\t" ++ fe.storageFilePath,
             "Source processed:\t" ++ filename,
             "Time of processing:\t" ++ copyToIsoFormat timeOfRun,
             "",
             "Collection information:"] ++
            collectionInformation.filterMap (fun kv =>
              if kv.1 == "file_processed" || kv.1 == "time_of_run" then none
              else some ("\t" ++ kv.1 ++ " = " ++ valueStr kv.2)))
  | _, _ => none

/-- Stable insertion of an entry into a count-descending list: the entry goes
in front of the first element whose count does not exceed its own. -/
def insertDesc (x : String × Nat) : List (String × Nat) → List (String × Nat)
  | [] => [x]
  | y :: ys => if y.2 ≤ x.2 then x :: y :: ys else y :: insertDesc x ys

/-- Modelled from the spec: `Counter.most_common()` (standard library, not
under `src/`) lists the table's entries in descending count order, entries
with equal counts keeping their original relative order (stable sort). -/
def mostCommon (counterInformation : List (String × Nat)) : List (String × Nat) :=
  counterInformation.foldr insertDesc []

/-- Lines appended by `_AddCounterInformation`: blank separator, description
header, then one `Counter: label = count` line per entry of `most_common()`. -/
def addCounterInformation (description : String)
    (counterInformation : List (String × Nat)) : List String :=
  ["", description ++ ":"] ++
    (mostCommon counterInformation).map
      (fun kv => "\tCounter: " ++ kv.1 ++ " = " ++ toString kv.2)

/-- Lines appended by `_AddStoreInformation`: blank separator, block header,
the authoritative `Number` line, then either the omission line (non-verbose)
or one pretty-printed entry per non-`Number` key.  `none` models the
`KeyError`/format error when `Number` is missing or not an integer. -/
def addStoreInformation (fe : Frontend)
    (storeInformation : List (String × Value)) : Option (List String) :=
  match lookup storeInformation "Number" with
  | some (.int n) =>
      some (["", "Store information:",
             "\tNumber of available stores: " ++ toString n] ++
        (if !fe.verbose then
          ["\tStore information details omitted (to see use: --verbose)"]
        else
          storeInformation.filterMap (fun kv =>
            if kv.1 == "Number" then none
            else some ("\t" ++ kv.1 ++ " =\n" ++ pformat kv.2))))
  | _ => none

/-- Header-and-collection portion of `_FormatStorageInformation`, as a
function of the looked-up `collection_information` attribute: a truthy
mapping gets the header and the collection lines, anything else the single
`Missing collection information.` line. -/
def collectionPartOf (fe : Frontend) (collectionInformation : Option Value) :
    Option (List String) :=
  match collectionInformation with
  | some v =>
      if v.truthy then
        match v with
        | .dict d => (addCollectionInformation fe d).map (fun ls => headerLines ++ ls)
        | _ => none
      else some ["Missing collection information."]
  | none => some ["Missing collection information."]

/-- Counter portion of `_FormatStorageInformation` for one counter attribute:
a truthy frequency table gets its block, a falsy or absent one nothing. -/
def counterPartOf (description : String) (counterInformation : Option Value) :
    Option (List String) :=
  match counterInformation with
  | some v =>
      if v.truthy then
        match v with
        | .counter c => some (addCounterInformation description c)
        | _ => none
      else some []
  | none => some []

/-- Store portion of `_FormatStorageInformation`: a truthy store mapping gets
its block, a falsy or absent one nothing. -/
def storePartOf (fe : Frontend) (storeInformation : Option Value) :
    Option (List String) :=
  match storeInformation with
  | some v =>
      if v.truthy then
        match v with
        | .dict d => addStoreInformation fe d
        | _ => none
      else some []
  | none => some []

/-- The `lines_of_text` accumulated by `_FormatStorageInformation` before the
join: collection part, the two counter parts, the store part, in order. -/
def informationLines (fe : Frontend) (info : PreprocessObject) :
    Option (List String) :=
  match collectionPartOf fe (getattrOpt info "collection_information") with
  | none => none
  | some collectionLines =>
    match counterPartOf "Parser counter information" (getattrOpt info "counter") with
    | none => none
    | some parserCounterLines =>
      match counterPartOf "Plugin counter information"
          (getattrOpt info "plugin_counter") with
      | none => none
      | some pluginCounterLines =>
        match storePartOf fe (getattrOpt info "stores") with
        | none => none
        | some storeLines =>
          some (collectionLines ++ parserCounterLines ++
            pluginCounterLines ++ storeLines)

/-- Rendering of one `__dict__` entry in the verbose preprocessing dump:
sequences are pretty-printed after a line break, scalars are inlined. -/
def renderEntry (kv : String × Value) : String :=
  match kv.2 with
  | .list l => "\t" ++ kv.1 ++ " =\n" ++ pformat (.list l) ++ "\n"
  | v => "\t" ++ kv.1 ++ " = " ++ valueStr v ++ "\n"

/-- Contribution of one `__dict__` entry to the verbose preprocessing dump:
the loop skips `collection_information`, `counter` and `stores` (and only
those) with `continue`, contributing nothing for them. -/
def preprocessingEntryLine (kv : String × Value) : String :=
  if kv.1 == "collection_information" then ""
  else if kv.1 == "counter" || kv.1 == "stores" then ""
  else renderEntry kv

/-- The `preprocessing` string built by `_FormatStorageInformation`: the
omission notice when not verbose, else the `Preprocessing information:`
header followed by the dump of the record's `__dict__`. -/
def preprocessingPart (fe : Frontend) (info : PreprocessObject) : String :=
  if !fe.verbose then
    "Preprocessing information omitted (to see use: --verbose)."
  else
    "Preprocessing information:\n" ++
      linesConcat (info.attrs.map preprocessingEntryLine)

/-- The `reports` string built by `_FormatStorageInformation`: empty unless
this is the last entry; for the last entry the omission notice or
`No reports stored.` depending on `HasReports()`, overridden by the joined
report texts when verbose. -/
def reportsPart (fe : Frontend) (storageFile : StorageFile) (lastEntry : Bool) :
    String :=
  let reports :=
    if !lastEntry then ""
    else if storageFile.hasReports then
      "Reporting information omitted (to see use: --verbose)."
    else "No reports stored."
  if fe.verbose && lastEntry && storageFile.hasReports then
    joinWith "\n" storageFile.reports
  else reports

/-- The closing delimiter `'-+' * 40`. -/
def closingDelimiter : String := linesConcat (List.replicate 40 "-+")

/-- `_FormatStorageInformation`: joins the information lines, a blank, the
preprocessing string, a blank, the reports string and the closing delimiter
with newlines.  `none` models an uncaught exception while formatting. -/
def formatStorageInformation (fe : Frontend) (info : PreprocessObject)
    (storageFile : StorageFile) (lastEntry : Bool) : Option String :=
  match informationLines fe info with
  | none => none
  | some lines =>
    some (joinWith "\n" [joinWith "\n" lines, "", preprocessingPart fe info, "",
      reportsPart fe storageFile lastEntry, closingDelimiter])

/-- The last-entry flag computed by `GetStorageInformation` for the record at
a given zero-based index: `index + 1 == len(list_of_storage_information)`. -/
def lastFlag (total : Nat) (index : Nat) : Bool := index + 1 == total

/-- `GetStorageInformation`: `openResult` is the outcome of the external
`OpenStorageFile()` call (`none` models the caught `IOError`), after which
the generator produces zero items; an empty record list yields exactly one
empty string; otherwise one formatted block per record in container order,
with the last-entry flag set only for the final record.  The outer `none`
models an uncaught exception escaping the generator. -/
def getStorageInformation (fe : Frontend) (openResult : Option StorageFile) :
    Option (List String) :=
  match openResult with
  | none => some []
  | some storageFile =>
      let records := storageFile.storageInformation
      if records.isEmpty then some [""]
      else records.enum.mapM (fun p =>
        formatStorageInformation fe p.2 storageFile (lastFlag records.length p.1))

/-- `Main`'s standard output, as the list of printed blocks: every generator
item is printed; the literal `No Plaso storage information found.` line is
printed only when the generator produced no item at all. -/
def mainOutput (fe : Frontend) (openResult : Option StorageFile) :
    Option (List String) :=
  match getStorageInformation fe openResult with
  | none => none
  | some items =>
      if items.isEmpty then some ["No Plaso storage information found."]
      else some items

/-- Reserved attribute names of a record, consumed by dedicated blocks. -/
def reservedKeys : List String :=
  ["collection_information", "counter", "plugin_counter", "stores"]

/-- Optional attribute entry for building a record's `__dict__`. -/
def optAttr (key : String) (v : Option Value) : List (String × Value) :=
  match v with
  | some x => [(key, x)]
  | none => []

/-- Record whose `__dict__` holds the four reserved attributes (when present)
followed by free-form preprocessing attributes. -/
def mkRecord (ci ctr plc st : Option Value) (extra : List (String × Value)) :
    PreprocessObject :=
  ⟨optAttr "collection_information" ci ++ (optAttr "counter" ctr ++
   (optAttr "plugin_counter" plc ++ (optAttr "stores" st ++ extra)))⟩

/-- Shapes of the lines that the counter and store blocks can contribute
after the collection part of the output. -/
def tailLineOk (s : String) : Prop :=
  s = "" ∨ s = "Parser counter information:" ∨ s = "Plugin counter information:" ∨
  s = "Store information:" ∨
  s = "\tStore information details omitted (to see use: --verbose)" ∨
  (∃ (k : String) (n : Nat), s = "\tCounter: " ++ k ++ " = " ++ toString n) ∨
  (∃ n : Int, s = "\tNumber of available stores: " ++ toString n) ∨
  (∃ k t : String, s = "\t" ++ k ++ " =\n" ++ t)

/-! ## Helper lemmas -/

theorem empty_append (s : String) : "" ++ s = s :=
  String.ext (by simp)

theorem append_empty (s : String) : s ++ "" = s :=
  String.ext (by simp)

theorem joinWith_cons (sep a : String) (t : List String) (h : t ≠ []) :
    joinWith sep (a :: t) = a ++ sep ++ joinWith sep t := by
  cases t with
  | nil => exact absurd rfl h
  | cons b r => rfl

theorem linesConcat_append (l1 l2 : List String) :
    linesConcat (l1 ++ l2) = linesConcat l1 ++ linesConcat l2 := by
  induction l1 with
  | nil => simp [linesConcat, empty_append]
  | cons s r ih => simp [linesConcat, ih, String.append_assoc]

theorem mem_insertDesc (x z : String × Nat) (l : List (String × Nat)) :
    z ∈ insertDesc x l ↔ z = x ∨ z ∈ l := by
  induction l with
  | nil => simp [insertDesc]
  | cons y ys ih =>
      by_cases h : y.2 ≤ x.2
      · simp only [insertDesc, if_pos h, List.mem_cons]
      · simp only [insertDesc, if_neg h, List.mem_cons, ih]
        tauto

theorem pairwise_insertDesc (x : String × Nat) (l : List (String × Nat))
    (h : l.Pairwise (fun a b => b.2 ≤ a.2)) :
    (insertDesc x l).Pairwise (fun a b => b.2 ≤ a.2) := by
  induction l with
  | nil => simp [insertDesc]
  | cons y ys ih =>
      rw [List.pairwise_cons] at h
      obtain ⟨hy, hys⟩ := h
      by_cases hle : y.2 ≤ x.2
      · simp only [insertDesc, if_pos hle]
        rw [List.pairwise_cons]
        refine ⟨?_, ?_⟩
        · intro z hz
          rcases List.mem_cons.mp hz with rfl | hz
          · exact hle
          · exact le_trans (hy z hz) hle
        · rw [List.pairwise_cons]
          exact ⟨hy, hys⟩
      · simp only [insertDesc, if_neg hle]
        rw [List.pairwise_cons]
        refine ⟨?_, ih hys⟩
        intro z hz
        rcases (mem_insertDesc x z ys).mp hz with rfl | hz
        · omega
        · exact hy z hz

theorem pairwise_mostCommon (c : List (String × Nat)) :
    (mostCommon c).Pairwise (fun a b => b.2 ≤ a.2) := by
  induction c with
  | nil => exact List.Pairwise.nil
  | cons x xs ih => exact pairwise_insertDesc x _ ih

theorem filter_insertDesc (x : String × Nat) (l : List (String × Nat)) (v : Nat) :
    (insertDesc x l).filter (fun kv => kv.2 == v) =
      if x.2 == v then x :: l.filter (fun kv => kv.2 == v)
      else l.filter (fun kv => kv.2 == v) := by
  induction l with
  | nil =>
      simp only [insertDesc]
      by_cases h : x.2 == v <;> simp [List.filter, h]
  | cons y ys ih =>
      by_cases hle : y.2 ≤ x.2
      · simp only [insertDesc, if_pos hle, List.filter_cons]
      · simp only [insertDesc, if_neg hle, List.filter_cons, ih]
        by_cases hx : x.2 == v
        · have hxv : x.2 = v := by simpa [beq_iff_eq] using hx
          have hyv : (y.2 == v) = false := by
            simp only [beq_eq_false_iff_ne, ne_eq]
            omega
          simp [hx, hyv]
        · simp [hx]

theorem filter_mostCommon (c : List (String × Nat)) (v : Nat) :
    (mostCommon c).filter (fun kv => kv.2 == v) = c.filter (fun kv => kv.2 == v) := by
  induction c with
  | nil => rfl
  | cons x xs ih =>
      have e : mostCommon (x :: xs) = insertDesc x (mostCommon xs) := rfl
      rw [e, filter_insertDesc]
      by_cases hx : x.2 == v <;> simp [List.filter_cons, hx, ih]

theorem countP_lastFlag (n : Nat) (h : 1 ≤ n) :
    (List.range n).countP (lastFlag n) = 1 := by
  obtain ⟨m, rfl⟩ : ∃ m, n = m + 1 := ⟨n - 1, by omega⟩
  rw [List.range_succ, List.countP_append]
  have h1 : (List.range m).countP (lastFlag (m + 1)) = 0 := by
    rw [List.countP_eq_zero]
    intro a ha
    simp only [List.mem_range] at ha
    simp only [lastFlag, beq_iff_eq]
    omega
  simp only [h1, Nat.zero_add]
  simp [lastFlag]

theorem isPrefixOf_append_self (l m : List Char) : l.isPrefixOf (l ++ m) = true := by
  induction l with
  | nil => simp [List.isPrefixOf]
  | cons a as ih => simp [List.isPrefixOf, ih]

theorem not_prefixed_of_isPrefixOf_false (s p : String)
    (h : p.data.isPrefixOf s.data = false) : ¬ ∃ rest, s = p ++ rest := by
  rintro ⟨rest, rfl⟩
  rw [String.data_append, isPrefixOf_append_self] at h
  exact absurd h (by simp)

theorem linesConcat_map_entry (l : List (String × Value)) :
    linesConcat (l.map preprocessingEntryLine) =
      linesConcat ((l.filter (fun kv => !(kv.1 == "collection_information" ||
        kv.1 == "counter" || kv.1 == "stores"))).map renderEntry) := by
  induction l with
  | nil => rfl
  | cons kv rest ih =>
      simp only [List.map_cons, linesConcat, List.filter_cons]
      by_cases h1 : kv.1 == "collection_information"
      · simp [preprocessingEntryLine, h1, empty_append, ih]
      · by_cases h2 : kv.1 == "counter" || kv.1 == "stores"
        · simp [preprocessingEntryLine, h1, h2, empty_append, ih]
        · simp [preprocessingEntryLine, h1, h2, linesConcat, ih]

theorem lookup_cons_ne (k : String) (x : Value) (r : List (String × Value)) (key : String)
    (h : (k == key) = false) : lookup ((k, x) :: r) key = lookup r key := by
  simp [lookup, h]

theorem lookup_optAttr_append_ne (k : String) (o : Option Value) (r : List (String × Value))
    (key : String) (h : (k == key) = false) :
    lookup (optAttr k o ++ r) key = lookup r key := by
  cases o with
  | none => rfl
  | some x => exact lookup_cons_ne k x r key h

theorem lookup_optAttr_append_self (k : String) (o : Option Value) (r : List (String × Value))
    (h : lookup r k = none) : lookup (optAttr k o ++ r) k = o := by
  cases o with
  | none => simpa using h
  | some x => simp [optAttr, lookup]

theorem getattr_mkRecord_ci (extra : List (String × Value))
    (h : lookup extra "collection_information" = none) (ci ctr plc st : Option Value) :
    getattrOpt (mkRecord ci ctr plc st extra) "collection_information" = ci := by
  unfold getattrOpt mkRecord
  apply lookup_optAttr_append_self
  rw [lookup_optAttr_append_ne _ _ _ _ (by decide),
      lookup_optAttr_append_ne _ _ _ _ (by decide),
      lookup_optAttr_append_ne _ _ _ _ (by decide)]
  exact h

theorem getattr_mkRecord_counter (extra : List (String × Value))
    (h : lookup extra "counter" = none) (ci ctr plc st : Option Value) :
    getattrOpt (mkRecord ci ctr plc st extra) "counter" = ctr := by
  unfold getattrOpt mkRecord
  rw [lookup_optAttr_append_ne _ _ _ _ (by decide)]
  apply lookup_optAttr_append_self
  rw [lookup_optAttr_append_ne _ _ _ _ (by decide),
      lookup_optAttr_append_ne _ _ _ _ (by decide)]
  exact h

theorem getattr_mkRecord_plugin (extra : List (String × Value))
    (h : lookup extra "plugin_counter" = none) (ci ctr plc st : Option Value) :
    getattrOpt (mkRecord ci ctr plc st extra) "plugin_counter" = plc := by
  unfold getattrOpt mkRecord
  rw [lookup_optAttr_append_ne _ _ _ _ (by decide),
      lookup_optAttr_append_ne _ _ _ _ (by decide)]
  apply lookup_optAttr_append_self
  rw [lookup_optAttr_append_ne _ _ _ _ (by decide)]
  exact h

theorem getattr_mkRecord_stores (extra : List (String × Value))
    (h : lookup extra "stores" = none) (ci ctr plc st : Option Value) :
    getattrOpt (mkRecord ci ctr plc st extra) "stores" = st := by
  unfold getattrOpt mkRecord
  rw [lookup_optAttr_append_ne _ _ _ _ (by decide),
      lookup_optAttr_append_ne _ _ _ _ (by decide),
      lookup_optAttr_append_ne _ _ _ _ (by decide)]
  exact lookup_optAttr_append_self _ _ _ h

theorem storePartOf_nonverbose_number (p : String) (n : Int) (d : List (String × Value)) :
    storePartOf ⟨false, p⟩ (some (.dict (("Number", .int n) :: d))) =
      some ["", "Store information:", "\tNumber of available stores: " ++ toString n,
            "\tStore information details omitted (to see use: --verbose)"] := by
  simp [storePartOf, Value.truthy, addStoreInformation, lookup]

theorem reportsPart_nonverbose (p : String) (recs : List PreprocessObject)
    (hr lastEntry : Bool) (reps : List String) :
    reportsPart ⟨false, p⟩ ⟨recs, hr, reps⟩ lastEntry =
      (if !lastEntry then ""
       else if hr then "Reporting information omitted (to see use: --verbose)."
       else "No reports stored.") := by
  simp [reportsPart]

theorem concat_entries_append (l1 l2 : List (String × Value)) :
    linesConcat ((l1 ++ l2).map preprocessingEntryLine) =
      linesConcat (l1.map preprocessingEntryLine) ++
        linesConcat (l2.map preprocessingEntryLine) := by
  rw [List.map_append, linesConcat_append]

theorem concat_entries_optAttr_skipped (k : String) (o : Option Value)
    (h : ∀ x, preprocessingEntryLine (k, x) = "") :
    linesConcat ((optAttr k o).map preprocessingEntryLine) = "" := by
  cases o with
  | none => rfl
  | some x => simp [optAttr, linesConcat, h, append_empty]

theorem preprocessingPart_mkRecord_skips (fe : Frontend) (ci ctr plc st : Option Value)
    (extra : List (String × Value)) :
    preprocessingPart fe (mkRecord ci ctr plc st extra) =
      preprocessingPart fe (mkRecord none none plc none extra) := by
  unfold preprocessingPart
  cases hv : (!fe.verbose) with
  | true => rfl
  | false =>
      simp only [Bool.false_eq_true, if_false]
      congr 1
      show linesConcat ((mkRecord ci ctr plc st extra).attrs.map preprocessingEntryLine) =
        linesConcat ((mkRecord none none plc none extra).attrs.map preprocessingEntryLine)
      unfold mkRecord
      rw [concat_entries_append, concat_entries_append, concat_entries_append,
          concat_entries_append,
          concat_entries_append, concat_entries_append, concat_entries_append,
          concat_entries_append,
          concat_entries_optAttr_skipped "collection_information" ci
            (fun x => by simp [preprocessingEntryLine]),
          concat_entries_optAttr_skipped "counter" ctr
            (fun x => by simp [preprocessingEntryLine]),
          concat_entries_optAttr_skipped "stores" st
            (fun x => by simp [preprocessingEntryLine]),
          concat_entries_optAttr_skipped "collection_information" none
            (fun x => by simp [preprocessingEntryLine]),
          concat_entries_optAttr_skipped "counter" none
            (fun x => by simp [preprocessingEntryLine]),
          concat_entries_optAttr_skipped "stores" none
            (fun x => by simp [preprocessingEntryLine])]

theorem collectionPartOf_empty (fe : Frontend) :
    collectionPartOf fe (some (.dict [])) = collectionPartOf fe none := by
  simp [collectionPartOf, Value.truthy]

theorem counterPartOf_empty (description : String) :
    counterPartOf description (some (.counter [])) = counterPartOf description none := by
  simp [counterPartOf, Value.truthy]

theorem storePartOf_empty (fe : Frontend) :
    storePartOf fe (some (.dict [])) = storePartOf fe none := by
  simp [storePartOf, Value.truthy]

theorem formatStorageInformation_congr (fe : Frontend) (r1 r2 : PreprocessObject)
    (sf1 sf2 : StorageFile) (lastEntry : Bool)
    (hinfo : informationLines fe r1 = informationLines fe r2)
    (hprep : preprocessingPart fe r1 = preprocessingPart fe r2)
    (hrep : reportsPart fe sf1 lastEntry = reportsPart fe sf2 lastEntry) :
    formatStorageInformation fe r1 sf1 lastEntry =
      formatStorageInformation fe r2 sf2 lastEntry := by
  unfold formatStorageInformation
  simp only [hinfo, hprep, hrep]

/-! ## Claims -/

/-- C1 (counterexample): for a container that opens successfully but holds
zero metadata records, the generator yields one empty string, so `Main`
prints a single empty line and never reaches the
`No Plaso storage information found.` branch — the claimed output is wrong. -/
theorem c1_counterexample :
    mainOutput ⟨false, "test.plaso"⟩ (some ⟨[], false, []⟩) ≠
      some ["No Plaso storage information found."] := by decide

/-- C1 (amended): when the container opens with zero records the program
prints a single empty line; the literal `No Plaso storage information found.`
line is printed exactly when the generator yields no item at all, i.e. when
the storage file fails to open. -/
theorem c1_main_output (fe : Frontend) (sf : StorageFile)
    (h : sf.storageInformation = []) :
    mainOutput fe (some sf) = some [""] ∧
    mainOutput fe none = some ["No Plaso storage information found."] := by
  constructor
  · simp [mainOutput, getStorageInformation, h]
  · rfl

/-- C1 witness: the amended claim evaluated on a concrete empty container. -/
theorem c1_main_output_witness :
    mainOutput ⟨false, "test.plaso"⟩ (some ⟨[], false, []⟩) = some [""] ∧
    mainOutput ⟨false, "test.plaso"⟩ none =
      some ["No Plaso storage information found."] :=
  ⟨(c1_main_output ⟨false, "test.plaso"⟩ ⟨[], false, []⟩ rfl).1,
   (c1_main_output ⟨false, "test.plaso"⟩ ⟨[], false, []⟩ rfl).2⟩

/-- C3: the reports string is empty unless the record is flagged last; for
the last record it is `No reports stored.` when no reports are available,
the fixed omission line when reports are available but verbosity is off, and
the newline-joined report texts in container order when reports are
available and verbosity is on; and for a non-empty record list exactly one
index carries the last-entry flag. -/
theorem c3_reports_block (fe : Frontend) (sf : StorageFile) :
    reportsPart fe sf false = "" ∧
    (sf.hasReports = false → reportsPart fe sf true = "No reports stored.") ∧
    (sf.hasReports = true → fe.verbose = false →
      reportsPart fe sf true =
        "Reporting information omitted (to see use: --verbose).") ∧
    (sf.hasReports = true → fe.verbose = true →
      reportsPart fe sf true = joinWith "\n" sf.reports) ∧
    (sf.storageInformation ≠ [] →
      (List.range sf.storageInformation.length).countP
        (lastFlag sf.storageInformation.length) = 1) := by
  refine ⟨?_, ?_, ?_, ?_, ?_⟩
  · simp [reportsPart]
  · intro h
    simp [reportsPart, h]
  · intro h hv
    simp [reportsPart, h, hv]
  · intro h hv
    simp [reportsPart, h, hv]
  · intro h
    apply countP_lastFlag
    cases e : sf.storageInformation with
    | nil => exact absurd e h
    | cons a t => simp [e]

/-- C3 witness: the reports-block cases and the last-flag count evaluated on
a concrete two-record container with two reports. -/
theorem c3_reports_block_witness :
    reportsPart ⟨true, "test.plaso"⟩ ⟨[⟨[]⟩, ⟨[]⟩], true, ["report one", "report two"]⟩ true =
      "report one\nreport two" ∧
    reportsPart ⟨false, "test.plaso"⟩ ⟨[⟨[]⟩, ⟨[]⟩], true, ["report one", "report two"]⟩ true =
      "Reporting information omitted (to see use: --verbose)." ∧
    reportsPart ⟨false, "test.plaso"⟩ ⟨[⟨[]⟩, ⟨[]⟩], false, []⟩ true = "No reports stored." ∧
    (List.range 2).countP (lastFlag 2) = 1 :=
  ⟨(c3_reports_block ⟨true, "test.plaso"⟩ ⟨[⟨[]⟩, ⟨[]⟩], true, ["report one", "report two"]⟩).2.2.2.1
      rfl rfl,
   (c3_reports_block ⟨false, "test.plaso"⟩ ⟨[⟨[]⟩, ⟨[]⟩], true, ["report one", "report two"]⟩).2.2.1
      rfl rfl,
   (c3_reports_block ⟨false, "test.plaso"⟩ ⟨[⟨[]⟩, ⟨[]⟩], false, []⟩).2.1 rfl,
   by simpa using
     (c3_reports_block ⟨false, "test.plaso"⟩ ⟨[⟨[]⟩, ⟨[]⟩], false, []⟩).2.2.2.2
       (by simp)⟩

/-- C4: the entries rendered by the counter block are sorted by descending
count, entries with equal counts keep the table's original relative order
(stable tie-break), and the `{a:5, b:5, c:2}` example renders in the order
`a`, `b`, `c`. -/
theorem c4_counter_order (c : List (String × Nat)) (v : Nat) :
    (mostCommon c).Pairwise (fun a b => b.2 ≤ a.2) ∧
    (mostCommon c).filter (fun kv => kv.2 == v) = c.filter (fun kv => kv.2 == v) ∧
    addCounterInformation "Parser counter information" [("a", 5), ("b", 5), ("c", 2)] =
      ["", "Parser counter information:", "\tCounter: a = 5", "\tCounter: b = 5",
       "\tCounter: c = 2"] :=
  ⟨pairwise_mostCommon c, filter_mostCommon c v, by decide⟩

/-- C7: the generator distinguishes the two empty outcomes — a failed open
produces zero items (no exception escapes), while an opened container with
an empty record list yields exactly one empty-string item. -/
theorem c7_generator_empty_cases (fe : Frontend) (sf : StorageFile)
    (h : sf.storageInformation = []) :
    getStorageInformation fe none = some [] ∧
    getStorageInformation fe (some sf) = some [""] := by
  constructor
  · rfl
  · simp [getStorageInformation, h]

/-- C7 witness: the two generator outcomes on concrete inputs. -/
theorem c7_generator_empty_cases_witness :
    getStorageInformation ⟨true, "missing.plaso"⟩ none = some [] ∧
    getStorageInformation ⟨true, "missing.plaso"⟩ (some ⟨[], true, ["r"]⟩) = some [""] :=
  ⟨(c7_generator_empty_cases ⟨true, "missing.plaso"⟩ ⟨[], true, ["r"]⟩ rfl).1,
   (c7_generator_empty_cases ⟨true, "missing.plaso"⟩ ⟨[], true, ["r"]⟩ rfl).2⟩

/-- C2 (counterexample): the verbose preprocessing dump skips only
`collection_information`, `counter` and `stores`; the plugin counter is not
skipped, so a record carrying only a `plugin_counter` attribute renders a
non-empty preprocessing body instead of the claimed empty one. -/
theorem c2_counterexample :
    preprocessingPart ⟨true, "test.plaso"⟩
        ⟨[("plugin_counter", .counter [("syslog", 2)])]⟩ ≠
      "Preprocessing information:\n" := by decide

/-- C2 (amended): in verbose mode the preprocessing block contains exactly
the record's attributes other than `collection_information`, the parser
counter table (`counter`) and `stores`; the plugin counter table is not
excluded and appears in the dump when present. -/
theorem c2_preprocessing_keys (p : String) (r : PreprocessObject) :
    preprocessingPart ⟨true, p⟩ r =
      "Preprocessing information:\n" ++
        linesConcat ((r.attrs.filter (fun kv => !(kv.1 == "collection_information" ||
          kv.1 == "counter" || kv.1 == "stores"))).map renderEntry) := by
  show "Preprocessing information:\n" ++
      linesConcat (r.attrs.map preprocessingEntryLine) = _
  rw [linesConcat_map_entry]

/-- C5 (counterexample): with verbosity off the preprocessing block is the
omission line `Preprocessing information omitted (to see use: --verbose).`,
which does not begin with the header `Preprocessing information:` — the
block's header is not emitted, contrary to the claim. -/
theorem c5_counterexample :
    ¬ ∃ rest, preprocessingPart ⟨false, "test.plaso"⟩
        ⟨[("osversion", .str "Windows 7")]⟩ =
      "Preprocessing information:" ++ rest :=
  not_prefixed_of_isPrefixOf_false _ _ (by decide)

/-- C5 (amended): the preprocessing block begins with the header
`Preprocessing information:` only in verbose mode, where its body lists every
non-reserved attribute as a `key = value` line; with verbosity off the whole
block is the fixed omission line and the header is not emitted. -/
theorem c5_preprocessing_block (p : String) (r : PreprocessObject) :
    preprocessingPart ⟨false, p⟩ r =
      "Preprocessing information omitted (to see use: --verbose)." ∧
    (∃ rest, preprocessingPart ⟨true, p⟩ r = "Preprocessing information:" ++ rest) ∧
    preprocessingPart ⟨true, p⟩ r =
      "Preprocessing information:\n" ++
        linesConcat ((r.attrs.filter (fun kv => !(kv.1 == "collection_information" ||
          kv.1 == "counter" || kv.1 == "stores"))).map renderEntry) ∧
    (∀ k v, renderEntry (k, Value.str v) = "\t" ++ k ++ " = " ++ v ++ "\n") := by
  have hbody : preprocessingPart ⟨true, p⟩ r =
      "Preprocessing information:\n" ++
        linesConcat ((r.attrs.filter (fun kv => !(kv.1 == "collection_information" ||
          kv.1 == "counter" || kv.1 == "stores"))).map renderEntry) := by
    show "Preprocessing information:\n" ++
        linesConcat (r.attrs.map preprocessingEntryLine) = _
    rw [linesConcat_map_entry]
  refine ⟨rfl, ?_, hbody, ?_⟩
  · refine ⟨"\n" ++ linesConcat ((r.attrs.filter (fun kv =>
      !(kv.1 == "collection_information" || kv.1 == "counter" ||
        kv.1 == "stores"))).map renderEntry), ?_⟩
    rw [hbody, ← String.append_assoc]
    congr 1
  · intro k v
    simp [renderEntry, valueStr]

/-- C6: with verbosity off, the formatted output of a record does not depend
on the store-detail entries (the non-`Number` entries of `stores`), on the
free-form preprocessing attributes, or on the report texts: two records
differing only in those inputs — over containers agreeing on `HasReports` —
produce identical output. -/
theorem c6_nonverbose_noninterference (p : String) (ci ctr plc : Option Value)
    (n : Int) (d1 d2 e1 e2 : List (String × Value))
    (recs1 recs2 : List PreprocessObject) (hr lastEntry : Bool)
    (reps1 reps2 : List String)
    (h1 : ∀ key ∈ reservedKeys, lookup e1 key = none)
    (h2 : ∀ key ∈ reservedKeys, lookup e2 key = none) :
    formatStorageInformation ⟨false, p⟩
        (mkRecord ci ctr plc (some (.dict (("Number", .int n) :: d1))) e1)
        ⟨recs1, hr, reps1⟩ lastEntry =
      formatStorageInformation ⟨false, p⟩
        (mkRecord ci ctr plc (some (.dict (("Number", .int n) :: d2))) e2)
        ⟨recs2, hr, reps2⟩ lastEntry := by
  apply formatStorageInformation_congr
  · unfold informationLines
    simp only [getattr_mkRecord_ci e1 (h1 _ (by decide)),
               getattr_mkRecord_ci e2 (h2 _ (by decide)),
               getattr_mkRecord_counter e1 (h1 _ (by decide)),
               getattr_mkRecord_counter e2 (h2 _ (by decide)),
               getattr_mkRecord_plugin e1 (h1 _ (by decide)),
               getattr_mkRecord_plugin e2 (h2 _ (by decide)),
               getattr_mkRecord_stores e1 (h1 _ (by decide)),
               getattr_mkRecord_stores e2 (h2 _ (by decide)),
               storePartOf_nonverbose_number]
  · rfl
  · rw [reportsPart_nonverbose, reportsPart_nonverbose]

/-- C6 witness: two concrete records differing only in store details,
preprocessing attributes and report texts give the same non-verbose output. -/
theorem c6_nonverbose_noninterference_witness :
    (∀ key ∈ reservedKeys, lookup [("osversion", Value.str "7")] key = none) ∧
    (∀ key ∈ reservedKeys, lookup [("osversion", Value.str "8")] key = none) ∧
    formatStorageInformation ⟨false, "test.plaso"⟩
        (mkRecord (some (.dict [("file_processed", .str "disk.img")])) none none
          (some (.dict (("Number", .int 1) :: [("vss", .list [.int 1, .int 2])])))
          [("osversion", Value.str "7")])
        ⟨[⟨[]⟩], true, ["secret report"]⟩ true =
      formatStorageInformation ⟨false, "test.plaso"⟩
        (mkRecord (some (.dict [("file_processed", .str "disk.img")])) none none
          (some (.dict (("Number", .int 1) :: [("other", .str "detail")])))
          [("osversion", Value.str "8")])
        ⟨[⟨[]⟩, ⟨[]⟩], true, ["different text"]⟩ true :=
  ⟨(by intro key hk; simp only [reservedKeys, List.mem_cons, List.not_mem_nil, or_false] at hk; rcases hk with rfl | rfl | rfl | rfl <;> rfl), (by intro key hk; simp only [reservedKeys, List.mem_cons, List.not_mem_nil, or_false] at hk; rcases hk with rfl | rfl | rfl | rfl <;> rfl),
   c6_nonverbose_noninterference "test.plaso"
     (some (.dict [("file_processed", .str "disk.img")])) none none 1
     [("vss", .list [.int 1, .int 2])] [("other", .str "detail")]
     [("osversion", Value.str "7")] [("osversion", Value.str "8")]
     [⟨[]⟩] [⟨[]⟩, ⟨[]⟩] true true ["secret report"] ["different text"]
     (by intro key hk; simp only [reservedKeys, List.mem_cons, List.not_mem_nil, or_false] at hk; rcases hk with rfl | rfl | rfl | rfl <;> rfl)
     (by intro key hk; simp only [reservedKeys, List.mem_cons, List.not_mem_nil, or_false] at hk; rcases hk with rfl | rfl | rfl | rfl <;> rfl)⟩

/-- C10 (counterexample): a record whose `plugin_counter` is a present but
empty frequency table is distinguishable from a record without the attribute:
in verbose mode the empty table still shows up as an entry of the
preprocessing dump, so the outputs differ. -/
theorem c10_counterexample :
    formatStorageInformation ⟨true, "test.plaso"⟩
        (mkRecord none none (some (.counter [])) none []) ⟨[], false, []⟩ false ≠
      formatStorageInformation ⟨true, "test.plaso"⟩
        (mkRecord none none none none []) ⟨[], false, []⟩ false := by decide

/-- C10 (amended): presence of an optional section is decided by truthiness —
a present-but-empty `collection_information` renders `Missing collection
information.` exactly as if absent, and a present-but-empty `stores` mapping
or frequency table produces no store or counter block.  Empty
`collection_information`, `counter` and `stores` are indistinguishable from
absent ones at the public interface; an empty `plugin_counter` is
indistinguishable only with verbosity off, since in verbose mode it still
appears as an entry of the preprocessing dump. -/
theorem c10_truthiness (fe : Frontend) (p : String) (ci ctr plc st : Option Value)
    (extra : List (String × Value)) (sf : StorageFile) (lastEntry : Bool)
    (h : ∀ key ∈ reservedKeys, lookup extra key = none) :
    collectionPartOf fe (some (.dict [])) = some ["Missing collection information."] ∧
    counterPartOf "Parser counter information" (some (.counter [])) = some [] ∧
    storePartOf fe (some (.dict [])) = some [] ∧
    formatStorageInformation fe (mkRecord (some (.dict [])) ctr plc st extra) sf
        lastEntry =
      formatStorageInformation fe (mkRecord none ctr plc st extra) sf lastEntry ∧
    formatStorageInformation fe (mkRecord ci (some (.counter [])) plc st extra) sf
        lastEntry =
      formatStorageInformation fe (mkRecord ci none plc st extra) sf lastEntry ∧
    formatStorageInformation fe (mkRecord ci ctr plc (some (.dict [])) extra) sf
        lastEntry =
      formatStorageInformation fe (mkRecord ci ctr plc none extra) sf lastEntry ∧
    formatStorageInformation ⟨false, p⟩ (mkRecord ci ctr (some (.counter [])) st extra)
        sf lastEntry =
      formatStorageInformation ⟨false, p⟩ (mkRecord ci ctr none st extra) sf
        lastEntry := by
  have hci := h "collection_information" (by decide)
  have hct := h "counter" (by decide)
  have hpl := h "plugin_counter" (by decide)
  have hst := h "stores" (by decide)
  refine ⟨by simp [collectionPartOf, Value.truthy],
          by simp [counterPartOf, Value.truthy],
          by simp [storePartOf, Value.truthy], ?_, ?_, ?_, ?_⟩
  · apply formatStorageInformation_congr
    · unfold informationLines
      simp only [getattr_mkRecord_ci extra hci, getattr_mkRecord_counter extra hct,
                 getattr_mkRecord_plugin extra hpl, getattr_mkRecord_stores extra hst,
                 collectionPartOf_empty]
    · exact (preprocessingPart_mkRecord_skips fe _ _ plc _ extra).trans
        (preprocessingPart_mkRecord_skips fe _ _ plc _ extra).symm
    · rfl
  · apply formatStorageInformation_congr
    · unfold informationLines
      simp only [getattr_mkRecord_ci extra hci, getattr_mkRecord_counter extra hct,
                 getattr_mkRecord_plugin extra hpl, getattr_mkRecord_stores extra hst,
                 counterPartOf_empty]
    · exact (preprocessingPart_mkRecord_skips fe _ _ plc _ extra).trans
        (preprocessingPart_mkRecord_skips fe _ _ plc _ extra).symm
    · rfl
  · apply formatStorageInformation_congr
    · unfold informationLines
      simp only [getattr_mkRecord_ci extra hci, getattr_mkRecord_counter extra hct,
                 getattr_mkRecord_plugin extra hpl, getattr_mkRecord_stores extra hst,
                 storePartOf_empty]
    · exact (preprocessingPart_mkRecord_skips fe _ _ plc _ extra).trans
        (preprocessingPart_mkRecord_skips fe _ _ plc _ extra).symm
    · rfl
  · apply formatStorageInformation_congr
    · unfold informationLines
      simp only [getattr_mkRecord_ci extra hci, getattr_mkRecord_counter extra hct,
                 getattr_mkRecord_plugin extra hpl, getattr_mkRecord_stores extra hst,
                 counterPartOf_empty]
    · rfl
    · rfl

/-- C10 witness: the truthiness facts evaluated on concrete data. -/
theorem c10_truthiness_witness :
    (∀ key ∈ reservedKeys, lookup [("osversion", Value.str "7")] key = none) ∧
    formatStorageInformation ⟨true, "test.plaso"⟩
        (mkRecord (some (.dict [])) none none none [("osversion", Value.str "7")])
        ⟨[⟨[]⟩], false, []⟩ true =
      formatStorageInformation ⟨true, "test.plaso"⟩
        (mkRecord none none none none [("osversion", Value.str "7")])
        ⟨[⟨[]⟩], false, []⟩ true :=
  ⟨(by intro key hk; simp only [reservedKeys, List.mem_cons, List.not_mem_nil, or_false] at hk; rcases hk with rfl | rfl | rfl | rfl <;> rfl),
   (c10_truthiness ⟨true, "test.plaso"⟩ "test.plaso" none none none none
     [("osversion", Value.str "7")] ⟨[⟨[]⟩], false, []⟩ true
     (by intro key hk; simp only [reservedKeys, List.mem_cons, List.not_mem_nil, or_false] at hk; rcases hk with rfl | rfl | rfl | rfl <;> rfl)).2.2.2.1⟩

theorem ne_of_mem_left_not_right (s t : String) (c : Char) (hs : c ∈ s.data)
    (ht : c ∉ t.data) : s ≠ t := fun e => ht (e ▸ hs)

theorem ne_append_of_isPrefixOf_false (s p rest : String)
    (h : p.data.isPrefixOf s.data = false) : s ≠ p ++ rest := by
  intro e
  rw [e, String.data_append, isPrefixOf_append_self] at h
  exact absurd h (by simp)

theorem data_head_append (p s : String) (c : Char) (lp : List Char)
    (hp : p.data = c :: lp) : (p ++ s).data = c :: (lp ++ s.data) := by
  rw [String.data_append, hp, List.cons_append]

theorem ne_of_data_heads (s t : String) (c c' : Char) (ls lt : List Char)
    (hs : s.data = c :: ls) (ht : t.data = c' :: lt) (h : c ≠ c') : s ≠ t := by
  intro e
  rw [e, ht] at hs
  injection hs with h1 _
  exact h h1.symm

theorem tailLineOk_empty : tailLineOk "" := by
  unfold tailLineOk
  exact Or.inl rfl

theorem tailLineOk_line1 : tailLineOk "Parser counter information:" := by
  unfold tailLineOk
  exact Or.inr (Or.inl rfl)

theorem tailLineOk_line2 : tailLineOk "Plugin counter information:" := by
  unfold tailLineOk
  exact Or.inr (Or.inr (Or.inl rfl))

theorem tailLineOk_line3 : tailLineOk "Store information:" := by
  unfold tailLineOk
  exact Or.inr (Or.inr (Or.inr (Or.inl rfl)))

theorem tailLineOk_line4 :
    tailLineOk "\tStore information details omitted (to see use: --verbose)" := by
  unfold tailLineOk
  exact Or.inr (Or.inr (Or.inr (Or.inr (Or.inl rfl))))

theorem tailLineOk_counterLine (k : String) (n : Nat) :
    tailLineOk ("\tCounter: " ++ k ++ " = " ++ toString n) := by
  unfold tailLineOk
  exact Or.inr (Or.inr (Or.inr (Or.inr (Or.inr (Or.inl ⟨k, n, rfl⟩)))))

theorem tailLineOk_numberLine (n : Int) :
    tailLineOk ("\tNumber of available stores: " ++ toString n) := by
  unfold tailLineOk
  exact Or.inr (Or.inr (Or.inr (Or.inr (Or.inr (Or.inr (Or.inl ⟨n, rfl⟩))))))

theorem tailLineOk_detailLine (k t : String) :
    tailLineOk ("\t" ++ k ++ " =\n" ++ t) := by
  unfold tailLineOk
  exact Or.inr (Or.inr (Or.inr (Or.inr (Or.inr (Or.inr (Or.inr ⟨k, t, rfl⟩))))))

theorem counterPartOf_lines (description : String) (v : Option Value)
    (ls : List String)
    (hd : description = "Parser counter information" ∨
      description = "Plugin counter information")
    (h : counterPartOf description v = some ls) : ∀ s ∈ ls, tailLineOk s := by
  intro s hs
  cases v with
  | none =>
      simp only [counterPartOf] at h
      obtain rfl := (Option.some.inj h).symm
      cases hs
  | some w =>
      simp only [counterPartOf] at h
      by_cases ht : w.truthy
      · rw [if_pos ht] at h
        cases w with
        | counter c =>
            obtain rfl := (Option.some.inj h).symm
            simp only [addCounterInformation, List.mem_append, List.mem_cons,
              List.not_mem_nil, or_false, List.mem_map] at hs
            rcases hs with (rfl | rfl) | ⟨kv, _, rfl⟩
            · exact tailLineOk_empty
            · rcases hd with rfl | rfl
              · rw [(by decide : ("Parser counter information" ++ ":" : String) =
                  "Parser counter information:")]
                exact tailLineOk_line1
              · rw [(by decide : ("Plugin counter information" ++ ":" : String) =
                  "Plugin counter information:")]
                exact tailLineOk_line2
            · exact tailLineOk_counterLine kv.1 kv.2
        | str a => simp at h
        | int a => simp at h
        | list a => simp at h
        | dict a => simp at h
      · rw [if_neg ht] at h
        obtain rfl := (Option.some.inj h).symm
        cases hs

theorem storePartOf_lines (fe : Frontend) (v : Option Value) (ls : List String)
    (h : storePartOf fe v = some ls) : ∀ s ∈ ls, tailLineOk s := by
  intro s hs
  cases v with
  | none =>
      simp only [storePartOf] at h
      obtain rfl := (Option.some.inj h).symm
      cases hs
  | some w =>
      simp only [storePartOf] at h
      by_cases ht : w.truthy
      · rw [if_pos ht] at h
        cases w with
        | dict d =>
            simp only [addStoreInformation] at h
            cases hn : lookup d "Number" with
            | none => rw [hn] at h; simp at h
            | some nv =>
                rw [hn] at h
                cases nv with
                | int n =>
                    obtain rfl := (Option.some.inj h).symm
                    simp only [List.mem_append, List.mem_cons, List.not_mem_nil,
                      or_false] at hs
                    rcases hs with (rfl | rfl | rfl) | hs
                    · exact tailLineOk_empty
                    · exact tailLineOk_line3
                    · exact tailLineOk_numberLine n
                    · by_cases hv : (!fe.verbose)
                      · rw [if_pos hv] at hs
                        simp only [List.mem_cons, List.not_mem_nil, or_false] at hs
                        subst hs
                        exact tailLineOk_line4
                      · rw [if_neg hv] at hs
                        simp only [List.mem_filterMap] at hs
                        obtain ⟨kv, _, hkv⟩ := hs
                        by_cases hnum : kv.1 == "Number"
                        · rw [if_pos hnum] at hkv
                          cases hkv
                        · rw [if_neg hnum] at hkv
                          obtain rfl := (Option.some.inj hkv).symm
                          exact tailLineOk_detailLine kv.1 (pformat kv.2)
                | str a => simp at h
                | list a => simp at h
                | dict a => simp at h
                | counter a => simp at h
        | str a => simp at h
        | int a => simp at h
        | list a => simp at h
        | counter a => simp at h
      · rw [if_neg ht] at h
        obtain rfl := (Option.some.inj h).symm
        cases hs

theorem tailLineOk_ne_banner (s : String) (h : tailLineOk s) :
    s ≠ "\t\tPlaso Storage Information" := by
  unfold tailLineOk at h
  rcases h with rfl | rfl | rfl | rfl | rfl | ⟨k, n, rfl⟩ | ⟨n, rfl⟩ | ⟨k, t, rfl⟩
  · decide
  · decide
  · decide
  · decide
  · decide
  · apply ne_of_mem_left_not_right _ _ ':'
    · rw [String.data_append, String.data_append, String.data_append]
      exact List.mem_append_left _ (List.mem_append_left _
        (List.mem_append_left _ (by decide)))
    · decide
  · apply ne_of_mem_left_not_right _ _ ':'
    · rw [String.data_append]
      exact List.mem_append_left _ (by decide)
    · decide
  · apply ne_of_mem_left_not_right _ _ '='
    · rw [String.data_append, String.data_append, String.data_append]
      exact List.mem_append_left _ (List.mem_append_right _ (by decide))
    · decide

theorem tailLineOk_ne_collection (s : String) (h : tailLineOk s) :
    s ≠ "Collection information:" := by
  unfold tailLineOk at h
  rcases h with rfl | rfl | rfl | rfl | rfl | ⟨k, n, rfl⟩ | ⟨n, rfl⟩ | ⟨k, t, rfl⟩
  · decide
  · decide
  · decide
  · decide
  · decide
  · apply ne_of_mem_left_not_right _ _ '\t'
    · rw [String.data_append, String.data_append, String.data_append]
      exact List.mem_append_left _ (List.mem_append_left _
        (List.mem_append_left _ (by decide)))
    · decide
  · apply ne_of_mem_left_not_right _ _ '\t'
    · rw [String.data_append]
      exact List.mem_append_left _ (by decide)
    · decide
  · apply ne_of_mem_left_not_right _ _ '\t'
    · rw [String.data_append, String.data_append, String.data_append]
      exact List.mem_append_left _ (List.mem_append_left _
        (List.mem_append_left _ (by decide)))
    · decide

theorem tailLineOk_ne_storage (s : String) (h : tailLineOk s) (rest : String) :
    s ≠ "Storage file:\t\t" ++ rest := by
  have hS := data_head_append "Storage file:\t\t" rest 'S' "torage file:\t\t".data
    (by decide)
  unfold tailLineOk at h
  rcases h with rfl | rfl | rfl | rfl | rfl | ⟨k, n, rfl⟩ | ⟨n, rfl⟩ | ⟨k, t, rfl⟩
  · intro e
    have h2 := congrArg String.data e
    rw [hS] at h2
    exact List.noConfusion h2
  · exact ne_of_data_heads _ _ 'P' 'S' _ _
      (by decide : "Parser counter information:".data =
        'P' :: "arser counter information:".data) hS (by decide)
  · exact ne_of_data_heads _ _ 'P' 'S' _ _
      (by decide : "Plugin counter information:".data =
        'P' :: "lugin counter information:".data) hS (by decide)
  · exact ne_append_of_isPrefixOf_false _ _ _ (by decide)
  · exact ne_of_data_heads _ _ '\t' 'S' _ _
      (by decide : "\tStore information details omitted (to see use: --verbose)".data =
        '\t' :: "Store information details omitted (to see use: --verbose)".data)
      hS (by decide)
  · have h1 := data_head_append "\tCounter: " k '\t' "Counter: ".data (by decide)
    have h2 := data_head_append ("\tCounter: " ++ k) " = " '\t' _ h1
    have h3 := data_head_append (("\tCounter: " ++ k) ++ " = ") (toString n) '\t' _ h2
    exact ne_of_data_heads _ _ '\t' 'S' _ _ h3 hS (by decide)
  · have h1 := data_head_append "\tNumber of available stores: " (toString n) '\t'
      "Number of available stores: ".data (by decide)
    exact ne_of_data_heads _ _ '\t' 'S' _ _ h1 hS (by decide)
  · have h1 := data_head_append "\t" k '\t' [] (by decide)
    have h2 := data_head_append ("\t" ++ k) " =\n" '\t' _ h1
    have h3 := data_head_append (("\t" ++ k) ++ " =\n") t '\t' _ h2
    exact ne_of_data_heads _ _ '\t' 'S' _ _ h3 hS (by decide)

theorem informationLines_eq_some (fe : Frontend) (r : PreprocessObject)
    (ls : List String) (h : informationLines fe r = some ls) :
    ∃ cp pc plc sp,
      collectionPartOf fe (getattrOpt r "collection_information") = some cp ∧
      counterPartOf "Parser counter information" (getattrOpt r "counter") = some pc ∧
      counterPartOf "Plugin counter information"
        (getattrOpt r "plugin_counter") = some plc ∧
      storePartOf fe (getattrOpt r "stores") = some sp ∧
      ls = cp ++ pc ++ plc ++ sp := by
  unfold informationLines at h
  split at h
  · exact absurd h (by simp)
  · rename_i cp hcp
    split at h
    · exact absurd h (by simp)
    · rename_i pc hpc
      split at h
      · exact absurd h (by simp)
      · rename_i plc hplc
        split at h
        · exact absurd h (by simp)
        · rename_i sp hsp
          exact ⟨cp, pc, plc, sp, hcp, hpc, hplc, hsp, (Option.some.inj h).symm⟩

theorem formatStorageInformation_eq_some (fe : Frontend) (r : PreprocessObject)
    (sf : StorageFile) (lastEntry : Bool) (out : String)
    (h : formatStorageInformation fe r sf lastEntry = some out) :
    ∃ ls, informationLines fe r = some ls ∧
      out = joinWith "\n" [joinWith "\n" ls, "", preprocessingPart fe r, "",
        reportsPart fe sf lastEntry, closingDelimiter] := by
  unfold formatStorageInformation at h
  split at h
  · exact absurd h (by simp)
  · rename_i ls hls
    exact ⟨ls, hls, (Option.some.inj h).symm⟩

/-- C8: for a record whose `collection_information` attribute is absent, the
information lines start with exactly `Missing collection information.`, the
header banner never appears among them, no collection-detail line
(`Storage file:` prefix or the `Collection information:` marker) appears, and
the later blocks — preprocessing, reports, closing delimiter — are still
assembled into the output, which begins with the missing-collection line. -/
theorem c8_missing_collection (fe : Frontend) (r : PreprocessObject)
    (sf : StorageFile) (lastEntry : Bool)
    (h : getattrOpt r "collection_information" = none) :
    (∀ ls, informationLines fe r = some ls →
      ls.head? = some "Missing collection information." ∧
      "\t\tPlaso Storage Information" ∉ ls ∧
      "Collection information:" ∉ ls ∧
      (∀ s ∈ ls, ∀ rest, s ≠ "Storage file:\t\t" ++ rest)) ∧
    (∀ out, formatStorageInformation fe r sf lastEntry = some out →
      ∃ rest, out = "Missing collection information." ++ rest) ∧
    (∀ ls, informationLines fe r = some ls →
      formatStorageInformation fe r sf lastEntry =
        some (joinWith "\n" [joinWith "\n" ls, "", preprocessingPart fe r, "",
          reportsPart fe sf lastEntry, closingDelimiter])) := by
  have hmain : ∀ ls, informationLines fe r = some ls →
      ∃ tail, ls = "Missing collection information." :: tail ∧
        ∀ s ∈ tail, tailLineOk s := by
    intro ls hls
    obtain ⟨cp, pc, plc, sp, hcp, hpc, hplc, hsp, rfl⟩ :=
      informationLines_eq_some fe r ls hls
    rw [h] at hcp
    obtain rfl : cp = ["Missing collection information."] :=
      (Option.some.inj hcp).symm
    refine ⟨(pc ++ plc) ++ sp, rfl, ?_⟩
    intro s hs
    simp only [List.mem_append] at hs
    rcases hs with (hs | hs) | hs
    · exact counterPartOf_lines _ _ _ (Or.inl rfl) hpc s hs
    · exact counterPartOf_lines _ _ _ (Or.inr rfl) hplc s hs
    · exact storePartOf_lines _ _ _ hsp s hs
  refine ⟨?_, ?_, ?_⟩
  · intro ls hls
    obtain ⟨tail, rfl, htail⟩ := hmain ls hls
    refine ⟨rfl, ?_, ?_, ?_⟩
    · intro hmem
      rcases List.mem_cons.mp hmem with heq | hmem2
      · exact absurd heq (by decide)
      · exact (tailLineOk_ne_banner _ (htail _ hmem2)) rfl
    · intro hmem
      rcases List.mem_cons.mp hmem with heq | hmem2
      · exact absurd heq (by decide)
      · exact (tailLineOk_ne_collection _ (htail _ hmem2)) rfl
    · intro s hs rest
      rcases List.mem_cons.mp hs with rfl | hmem2
      · exact ne_of_data_heads _ _ 'M' 'S' _ _
          (by decide : "Missing collection information.".data =
            'M' :: "issing collection information.".data)
          (data_head_append "Storage file:\t\t" rest 'S' "torage file:\t\t".data
            (by decide)) (by decide)
      · exact tailLineOk_ne_storage s (htail s hmem2) rest
  · intro out hout
    obtain ⟨ls, hls, rfl⟩ :=
      formatStorageInformation_eq_some fe r sf lastEntry out hout
    obtain ⟨tail, rfl, -⟩ := hmain ls hls
    cases tail with
    | nil =>
        simp only [joinWith, String.append_assoc]
        exact ⟨_, rfl⟩
    | cons b t =>
        simp only [joinWith, String.append_assoc]
        exact ⟨_, rfl⟩
  · intro ls hls
    unfold formatStorageInformation
    rw [hls]

/-- C8 witness: a concrete record without `collection_information` evaluated
through the theorem. -/
theorem c8_missing_collection_witness :
    getattrOpt ⟨[("counter", .counter [("pe", 3)])]⟩ "collection_information" = none ∧
    (∀ ls, informationLines ⟨false, "test.plaso"⟩
        ⟨[("counter", .counter [("pe", 3)])]⟩ = some ls →
      ls.head? = some "Missing collection information." ∧
      "\t\tPlaso Storage Information" ∉ ls ∧
      "Collection information:" ∉ ls ∧
      (∀ s ∈ ls, ∀ rest, s ≠ "Storage file:\t\t" ++ rest)) :=
  ⟨rfl,
   (c8_missing_collection ⟨false, "test.plaso"⟩ ⟨[("counter", .counter [("pe", 3)])]⟩
     ⟨[⟨[("counter", .counter [("pe", 3)])]⟩], false, []⟩ true rfl).1⟩

/-- C9: when `collection_information` lacks `file_processed` or `time_of_run`
the collection block is still produced without raising: the
`Source processed:` line falls back to `N/A` and the `Time of processing:`
line renders the epoch timestamp `0` as the ISO-8601 string
`1970-01-01T00:00:00`. -/
theorem c9_collection_defaults (fe : Frontend) (ci : List (String × Value))
    (h1 : lookup ci "file_processed" = none)
    (h2 : lookup ci "time_of_run" = none) :
    ∃ ls, addCollectionInformation fe ci = some ls ∧
      ("Source processed:\t" ++ "N/A") ∈ ls ∧
      ("Time of processing:\t" ++ copyToIsoFormat 0) ∈ ls ∧
      copyToIsoFormat 0 = "1970-01-01T00:00:00" := by
  unfold addCollectionInformation
  rw [h1, h2]
  refine ⟨_, rfl, ?_, ?_, by decide⟩
  · simp
  · simp

/-- C9 witness: the defaults evaluated on a concrete collection mapping that
lacks both reserved keys. -/
theorem c9_collection_defaults_witness :
    lookup [("osversion", Value.str "7")] "file_processed" = none ∧
    lookup [("osversion", Value.str "7")] "time_of_run" = none ∧
    ∃ ls, addCollectionInformation ⟨false, "test.plaso"⟩
        [("osversion", Value.str "7")] = some ls ∧
      ("Source processed:\t" ++ "N/A") ∈ ls ∧
      ("Time of processing:\t" ++ copyToIsoFormat 0) ∈ ls ∧
      copyToIsoFormat 0 = "1970-01-01T00:00:00" :=
  ⟨rfl, rfl,
   c9_collection_defaults ⟨false, "test.plaso"⟩ [("osversion", Value.str "7")] rfl rfl⟩

end Pinfo
